import Mathlib

/-!
Verification of the rg3d-ui widget core: a shallow embedding of the
stack-panel layout (`src/stack_panel.rs`), the common widget record and its
builder (`src/widget.rs`), the text-box event handler (`src/text_box.rs`)
and the event types (`src/event.rs`), together with theorems checking the
natural-language specification against that code.

Numeric model: `f32` values are embedded as the inductive type `F32` over
exact rationals extended with NaN and the two infinities.  Arithmetic on
finite values is exact (rounding of IEEE floats is idealised away); the
NaN-propagation and comparison semantics (`NaN` compares false to
everything) mirror IEEE and are what the layout code's `is_nan`/`<`/`>`
tests depend on.
-/

namespace RgUI

/-- Model of `f32`: exact rationals plus NaN and the two infinities. -/
inductive F32 where
  | nan : F32
  | inf : F32
  | neginf : F32
  | fin : ℚ → F32
deriving DecidableEq, Repr

/-- Source `is_nan`. -/
def F32.isNan : F32 → Bool
  | .nan => true
  | _ => false

/-- IEEE `<` as a Boolean: any comparison with NaN is false. -/
def F32.blt : F32 → F32 → Bool
  | .nan, _ => false
  | _, .nan => false
  | .neginf, .neginf => false
  | .neginf, _ => true
  | _, .neginf => false
  | .inf, _ => false
  | .fin _, .inf => true
  | .fin a, .fin b => decide (a < b)

/-- IEEE `>` as a Boolean. -/
def F32.bgt (a b : F32) : Bool := F32.blt b a

/-- IEEE addition on the model: NaN propagates, `inf + neginf` is NaN,
finite addition is exact. -/
def F32.add : F32 → F32 → F32
  | .nan, _ => .nan
  | _, .nan => .nan
  | .inf, .neginf => .nan
  | .neginf, .inf => .nan
  | .inf, _ => .inf
  | _, .inf => .inf
  | .neginf, _ => .neginf
  | _, .neginf => .neginf
  | .fin a, .fin b => .fin (a + b)

/-- The crate-root helper `maxf` (its definition lives outside the four
source files; the standard rg3d helper is `if a > b { a } else { b }`). -/
def maxf (a b : F32) : F32 := if F32.bgt a b then a else b

/-- Source `Vec2` from `core::math::vec2` (external to the four files): a pair of
`f32` components. -/
structure Vec2 where
  x : F32
  y : F32
deriving DecidableEq, Repr

/-- Source `Vec2::ZERO`. -/
def Vec2.ZERO : Vec2 := ⟨F32.fin 0, F32.fin 0⟩

/-- Source `Rect` from `core::math` (external): x, y, w, h as `f32`. -/
structure Rect where
  x : F32
  y : F32
  w : F32
  h : F32
deriving DecidableEq, Repr

/-- Modelled from the spec: `Handle<UINode>` is a generation-checked arena
index with a distinguished `NONE` value for which `is_some()` is false
(spec §3 "Handle"); the arena type itself is outside the four source files.
Modelled as a bare index. -/
structure Handle where
  index : Nat
deriving DecidableEq, Repr

/-- Source `Handle::NONE`. -/
def Handle.NONE : Handle := ⟨0⟩

/-- Source `Handle::is_some()`: true exactly for handles other than `NONE`. -/
def Handle.isSome (h : Handle) : Bool := decide (h ≠ Handle.NONE)

/-- Source `Orientation` from `scroll_bar` (external to the four files): the
stacking axis of a `StackPanel`. -/
inductive Orientation where
  | Vertical
  | Horizontal
deriving DecidableEq, Repr

/-- The child-constraint computation at the head of
`StackPanel::measure_override` (`src/stack_panel.rs:69-100`): start from
`(inf, inf)`; on the cross axis take the available size, replace it by the
panel's explicit size when that is not NaN, then pull it up to `min_size`
and down to `max_size` by the two sequential comparisons. -/
def stackChildConstraint (orientation : Orientation) (width height : F32)
    (min_size max_size : Vec2) (available_size : Vec2) : Vec2 :=
  match orientation with
  | .Vertical =>
    let cx0 := available_size.x
    let cx1 := if ¬ width.isNan then width else cx0
    let cx2 := if F32.blt cx1 min_size.x then min_size.x else cx1
    let cx3 := if F32.bgt cx2 max_size.x then max_size.x else cx2
    ⟨cx3, F32.inf⟩
  | .Horizontal =>
    let cy0 := available_size.y
    let cy1 := if ¬ height.isNan then height else cy0
    let cy2 := if F32.blt cy1 min_size.y then min_size.y else cy1
    let cy3 := if F32.bgt cy2 max_size.y then max_size.y else cy2
    ⟨F32.inf, cy3⟩

/-- The accumulation loop of `StackPanel::measure_override`
(`src/stack_panel.rs:102-123`), over the desired sizes the children report
after being measured (the recursive `measure` call on each child is
abstracted into the input list): vertical panels take the running maximum
of widths and the running sum of heights, horizontal panels symmetrically. -/
def stackMeasureLoop (orientation : Orientation) (acc : Vec2) :
    List Vec2 → Vec2
  | [] => acc
  | d :: rest =>
    match orientation with
    | .Vertical =>
      stackMeasureLoop orientation
        ⟨if F32.bgt d.x acc.x then d.x else acc.x, F32.add acc.y d.y⟩ rest
    | .Horizontal =>
      stackMeasureLoop orientation
        ⟨F32.add acc.x d.x, if F32.bgt d.y acc.y then d.y else acc.y⟩ rest

/-- Source `StackPanel::measure_override`'s returned `measured_size`
(`src/stack_panel.rs:102-125`): the loop started from `Vec2::ZERO`. -/
def stackMeasureSize (orientation : Orientation)
    (childDesiredSizes : List Vec2) : Vec2 :=
  stackMeasureLoop orientation Vec2.ZERO childDesiredSizes

/-- The loop of `StackPanel::arrange_override` (`src/stack_panel.rs:137-163`):
returns the rectangle handed to each child by `child.arrange` in order,
and the final running `width` and `height` accumulators. -/
def stackArrangeLoop (orientation : Orientation) (width height : F32) :
    List Vec2 → List Rect × F32 × F32
  | [] => ([], width, height)
  | d :: rest =>
    match orientation with
    | .Vertical =>
      let child_bounds : Rect := ⟨F32.fin 0, height, maxf width d.x, d.y⟩
      let r := stackArrangeLoop orientation (maxf width d.x)
        (F32.add height d.y) rest
      (child_bounds :: r.1, r.2)
    | .Horizontal =>
      let child_bounds : Rect := ⟨width, F32.fin 0, d.x, maxf height d.y⟩
      let r := stackArrangeLoop orientation (F32.add width d.x)
        (maxf height d.y) rest
      (child_bounds :: r.1, r.2)

/-- Source `StackPanel::arrange_override` (`src/stack_panel.rs:128-175`): the
rectangles assigned to the children (in children order) and the returned
size.  Vertical: `width` starts at `final_size.x`, `height` at `0`; after
the loop `height` is pulled up to `final_size.y`.  Horizontal symmetric. -/
def stackArrangeOverride (orientation : Orientation) (final_size : Vec2)
    (childDesiredSizes : List Vec2) : List Rect × Vec2 :=
  match orientation with
  | .Vertical =>
    let r := stackArrangeLoop orientation final_size.x (F32.fin 0)
      childDesiredSizes
    (r.1, ⟨r.2.1, maxf r.2.2 final_size.y⟩)
  | .Horizontal =>
    let r := stackArrangeLoop orientation (F32.fin 0) final_size.y
      childDesiredSizes
    (r.1, ⟨maxf r.2.1 final_size.x, r.2.2⟩)

/-- Map finite rational pairs to `Vec2`s. -/
def finVec (p : ℚ × ℚ) : Vec2 := ⟨F32.fin p.1, F32.fin p.2⟩

/-- Source `VerticalAlignment` (crate root, external to the four files; spec §3
enumerates Top/Center/Bottom/Stretch). -/
inductive VerticalAlignment where
  | Top
  | Center
  | Bottom
  | Stretch
deriving DecidableEq, Repr

/-- Source `HorizontalAlignment` (crate root; spec §3: Left/Center/Right/Stretch). -/
inductive HorizontalAlignment where
  | Left
  | Center
  | Right
  | Stretch
deriving DecidableEq, Repr

/-- Source `Visibility` (crate root; spec §3: Visible/Collapsed/Hidden). -/
inductive Visibility where
  | Visible
  | Collapsed
  | Hidden
deriving DecidableEq, Repr

/-- Source `Thickness` (crate root): a 4-sided margin. -/
structure Thickness where
  left : F32
  top : F32
  right : F32
  bottom : F32
deriving DecidableEq, Repr

/-- Source `Thickness::zero()`. -/
def Thickness.zero : Thickness := ⟨F32.fin 0, F32.fin 0, F32.fin 0, F32.fin 0⟩

/-- Source `Color` from `core::color` (external): an 8-bit RGBA quadruple. -/
structure Color where
  r : Nat
  g : Nat
  b : Nat
  a : Nat
deriving DecidableEq, Repr

/-- Source `Color::WHITE`. -/
def Color.WHITE : Color := ⟨255, 255, 255, 255⟩

/-- Source `MouseButton` (`src/event.rs:164-170`). -/
inductive MouseButton where
  | Left
  | Right
  | Middle
  | Other (code : Nat)
deriving DecidableEq, Repr

/-- Source `KeyCode` (`src/event.rs:188-362`). -/
inductive KeyCode where
  | Key1 | Key2 | Key3 | Key4 | Key5 | Key6 | Key7 | Key8 | Key9 | Key0
  | A | B | C | D | E | F | G | H | I | J | K | L | M
  | N | O | P | Q | R | S | T | U | V | W | X | Y | Z
  | Escape
  | F1 | F2 | F3 | F4 | F5 | F6 | F7 | F8 | F9 | F10 | F11 | F12
  | F13 | F14 | F15 | F16 | F17 | F18 | F19 | F20 | F21 | F22 | F23 | F24
  | Snapshot | Scroll | Pause
  | Insert | Home | Delete | End | PageDown | PageUp
  | Left | Up | Right | Down
  | Backspace | Return | Space
  | Compose
  | Caret
  | Numlock
  | Numpad0 | Numpad1 | Numpad2 | Numpad3 | Numpad4
  | Numpad5 | Numpad6 | Numpad7 | Numpad8 | Numpad9
  | AbntC1 | AbntC2 | Add | Apostrophe | Apps | At | Ax | Backslash
  | Calculator | Capital | Colon | Comma | Convert | Decimal | Divide
  | Equals | Grave | Kana | Kanji | LAlt | LBracket | LControl | LShift
  | LWin | Mail | MediaSelect | MediaStop | Minus | Multiply | Mute
  | MyComputer | NavigateForward | NavigateBackward | NextTrack | NoConvert
  | NumpadComma | NumpadEnter | NumpadEquals | OEM102 | Period | PlayPause
  | Power | PrevTrack | RAlt | RBracket | RControl | RShift | RWin
  | Semicolon | Slash | Sleep | Stop | Subtract | Sysrq | Tab | Underline
  | Unlabeled | VolumeDown | VolumeUp | Wake | WebBack | WebFavorites
  | WebForward | WebHome | WebRefresh | WebSearch | WebStop | Yen
  | Copy | Paste | Cut
deriving DecidableEq, Repr

/-- Source `UIEventKind` (`src/event.rs:10-104`).  The `User(Box<dyn Any>)`
payload is external dynamic data and is modelled without a payload. -/
inductive UIEventKind where
  | MouseDown (pos : Vec2) (button : MouseButton)
  | MouseUp (pos : Vec2) (button : MouseButton)
  | MouseMove (pos : Vec2)
  | Text (symbol : Char)
  | KeyDown (code : KeyCode)
  | KeyUp (code : KeyCode)
  | MouseWheel (pos : Vec2) (amount : F32)
  | MouseLeave
  | MouseEnter
  | Click
  | NumericValueChanged (old_value : F32) (new_value : F32)
  | MaxValueChanged (value : F32)
  | MinValueChanged (value : F32)
  | SelectionChanged (value : Option Nat)
  | Opened
  | Closed
  | GotFocus
  | LostFocus
  | Minimized (value : Bool)
  | CanMinimizeChanged (value : Bool)
  | CanCloseChanged (value : Bool)
  | Checked (value : Option Bool)
  | User
deriving DecidableEq, Repr

/-- Source `UIEvent` (`src/event.rs:108-132`). -/
structure UIEvent where
  handled : Bool
  kind : UIEventKind
  target : Handle
  source : Handle
deriving DecidableEq, Repr

/-- Source `UIEvent::targeted` (`src/event.rs:135-142`). -/
def UIEvent.targeted (target : Handle) (kind : UIEventKind) : UIEvent :=
  ⟨false, kind, target, Handle.NONE⟩

/-- Source `UIEvent::new` (`src/event.rs:144-151`). -/
def UIEvent.new (kind : UIEventKind) : UIEvent :=
  ⟨false, kind, Handle.NONE, Handle.NONE⟩

/-- The dynamic type of a `&dyn Any` value handed to
`Widget::set_property`: exactly the payload types the twelve known
properties downcast to, plus `other` for any unrelated dynamic type.
`f32` and `f64` are distinct dynamic types (a downcast to one fails on the
other); both carry the same idealised numeric payload, the `f64 → f32`
cast in the source being modelled as exact. -/
inductive DynValue where
  | hAlign (v : HorizontalAlignment)
  | vAlign (v : VerticalAlignment)
  | f32 (v : F32)
  | f64 (v : F32)
  | thickness (v : Thickness)
  | usize (v : Nat)
  | color (v : Color)
  | visibility (v : Visibility)
  | vec2 (v : Vec2)
  | other
deriving DecidableEq, Repr

/-- Modelled from the spec: a `Style` is a shared property bag applied by
writing matching named properties via `set_property` (spec §6); its
concrete type is external to the four source files. -/
abbrev Style := List (String × DynValue)

/-- Modelled from the spec: `ControlTemplate` belongs to the external
template/clone collaborator (spec §6) and carries no data any of the four
source files inspect. -/
abbrev ControlTemplate := Unit

/-- The `HashMap<Handle<UINode>, Handle<UINode>>` old-to-new mapping handed
to `resolve`, modelled as an association list. -/
abbrev HandleMap := List (Handle × Handle)

/-- Source `Widget` (`src/widget.rs:34-79`): the common state embedded in every
tree node.  Interior-mutability wrappers (`Cell`, `RefCell`) are modelled
by plain fields; `command_indices` and `events` are the per-node command
and pending-event buffers; `style` is the optional shared style
reference. -/
structure Widget where
  name : String
  desired_local_position : Vec2
  width : F32
  height : F32
  screen_position : Vec2
  desired_size : Vec2
  actual_local_position : Vec2
  actual_size : Vec2
  min_size : Vec2
  max_size : Vec2
  background : Color
  foreground : Color
  row : Nat
  column : Nat
  vertical_alignment : VerticalAlignment
  horizontal_alignment : HorizontalAlignment
  margin : Thickness
  visibility : Visibility
  global_visibility : Bool
  children : List Handle
  parent : Handle
  command_indices : List Nat
  is_mouse_over : Bool
  measure_valid : Bool
  arrange_valid : Bool
  events : List UIEvent
  is_hit_test_visible : Bool
  style : Option Style
deriving DecidableEq, Repr

/-- Source `Widget::raw_copy` (`src/widget.rs:96-127`): a field-for-field copy,
except that `command_indices` and `events` are reset to empty defaults and
`measure_valid`/`arrange_valid` are reset to false. -/
def Widget.raw_copy (w : Widget) : Widget :=
  { name := w.name
    desired_local_position := w.desired_local_position
    width := w.width
    height := w.height
    screen_position := w.screen_position
    desired_size := w.desired_size
    actual_local_position := w.actual_local_position
    actual_size := w.actual_size
    min_size := w.min_size
    max_size := w.max_size
    background := w.background
    foreground := w.foreground
    row := w.row
    column := w.column
    vertical_alignment := w.vertical_alignment
    horizontal_alignment := w.horizontal_alignment
    margin := w.margin
    visibility := w.visibility
    global_visibility := w.global_visibility
    children := w.children
    parent := w.parent
    command_indices := []
    is_mouse_over := w.is_mouse_over
    measure_valid := false
    arrange_valid := false
    events := []
    is_hit_test_visible := w.is_hit_test_visible
    style := w.style }

/-- Source `Widget::resolve` (`src/widget.rs:129`): the body is empty — the
template and the old-to-new handle mapping are ignored and the widget is
left as it is. -/
def Widget.resolve (w : Widget) (_template : ControlTemplate)
    (_mapping : HandleMap) : Widget := w

/-- Property-name constants (`src/widget.rs:199-210`). -/
def Widget.WIDTH : String := "Width"

def Widget.HEIGHT : String := "Height"

def Widget.VERTICAL_ALIGNMENT : String := "VerticalAlignment"

def Widget.HORIZONTAL_ALIGNMENT : String := "HorizontalAlignment"

def Widget.MARGIN : String := "Margin"

def Widget.ROW : String := "Row"

def Widget.COLUMN : String := "Column"

def Widget.BACKGROUND : String := "Background"

def Widget.FOREGROUND : String := "Foreground"

def Widget.VISIBILITY : String := "Visibility"

def Widget.MIN_SIZE : String := "MinSize"

def Widget.MAX_SIZE : String := "MaxSize"

/-- Source `Widget::set_property` (`src/widget.rs:131-177`): match on the name
(the Rust `match` on `&str` is a sequential comparison), then attempt the
downcast; `Width`/`Height` fall back to a second downcast as `f64`, cast
to `f32`.  Any unknown name or failed downcast leaves the widget as it
is. -/
def Widget.set_property (w : Widget) (name : String) (value : DynValue) : Widget :=
  if name = Widget.HORIZONTAL_ALIGNMENT then
    match value with
    | .hAlign v => { w with horizontal_alignment := v }
    | _ => w
  else if name = Widget.VERTICAL_ALIGNMENT then
    match value with
    | .vAlign v => { w with vertical_alignment := v }
    | _ => w
  else if name = Widget.WIDTH then
    match value with
    | .f32 v => { w with width := v }
    | .f64 v => { w with width := v }
    | _ => w
  else if name = Widget.HEIGHT then
    match value with
    | .f32 v => { w with height := v }
    | .f64 v => { w with height := v }
    | _ => w
  else if name = Widget.MARGIN then
    match value with
    | .thickness v => { w with margin := v }
    | _ => w
  else if name = Widget.ROW then
    match value with
    | .usize v => { w with row := v }
    | _ => w
  else if name = Widget.COLUMN then
    match value with
    | .usize v => { w with column := v }
    | _ => w
  else if name = Widget.BACKGROUND then
    match value with
    | .color v => { w with background := v }
    | _ => w
  else if name = Widget.FOREGROUND then
    match value with
    | .color v => { w with foreground := v }
    | _ => w
  else if name = Widget.VISIBILITY then
    match value with
    | .visibility v => { w with visibility := v }
    | _ => w
  else if name = Widget.MIN_SIZE then
    match value with
    | .vec2 v => { w with min_size := v }
    | _ => w
  else if name = Widget.MAX_SIZE then
    match value with
    | .vec2 v => { w with max_size := v }
    | _ => w
  else w

/-- Whether `set_property` accepts this name/value pair (spec reading of
the amended C7: the name is known and the value's dynamic type is one the
property accepts — its expected type, or also `f64` for the two size
properties). -/
def acceptsProperty (name : String) (value : DynValue) : Bool :=
  if name = Widget.HORIZONTAL_ALIGNMENT then
    match value with
    | .hAlign _ => true
    | _ => false
  else if name = Widget.VERTICAL_ALIGNMENT then
    match value with
    | .vAlign _ => true
    | _ => false
  else if name = Widget.WIDTH then
    match value with
    | .f32 _ => true
    | .f64 _ => true
    | _ => false
  else if name = Widget.HEIGHT then
    match value with
    | .f32 _ => true
    | .f64 _ => true
    | _ => false
  else if name = Widget.MARGIN then
    match value with
    | .thickness _ => true
    | _ => false
  else if name = Widget.ROW then
    match value with
    | .usize _ => true
    | _ => false
  else if name = Widget.COLUMN then
    match value with
    | .usize _ => true
    | _ => false
  else if name = Widget.BACKGROUND then
    match value with
    | .color _ => true
    | _ => false
  else if name = Widget.FOREGROUND then
    match value with
    | .color _ => true
    | _ => false
  else if name = Widget.VISIBILITY then
    match value with
    | .visibility _ => true
    | _ => false
  else if name = Widget.MIN_SIZE then
    match value with
    | .vec2 _ => true
    | _ => false
  else if name = Widget.MAX_SIZE then
    match value with
    | .vec2 _ => true
    | _ => false
  else false

/-- The single-field update `set_property` performs when the name/value
pair is accepted (spec side of the amended C7: exactly the named property
changes, all other fields are untouched). -/
def applyProperty (name : String) (value : DynValue) (w : Widget) : Widget :=
  if name = Widget.HORIZONTAL_ALIGNMENT then
    match value with
    | .hAlign v => { w with horizontal_alignment := v }
    | _ => w
  else if name = Widget.VERTICAL_ALIGNMENT then
    match value with
    | .vAlign v => { w with vertical_alignment := v }
    | _ => w
  else if name = Widget.WIDTH then
    match value with
    | .f32 v => { w with width := v }
    | .f64 v => { w with width := v }
    | _ => w
  else if name = Widget.HEIGHT then
    match value with
    | .f32 v => { w with height := v }
    | .f64 v => { w with height := v }
    | _ => w
  else if name = Widget.MARGIN then
    match value with
    | .thickness v => { w with margin := v }
    | _ => w
  else if name = Widget.ROW then
    match value with
    | .usize v => { w with row := v }
    | _ => w
  else if name = Widget.COLUMN then
    match value with
    | .usize v => { w with column := v }
    | _ => w
  else if name = Widget.BACKGROUND then
    match value with
    | .color v => { w with background := v }
    | _ => w
  else if name = Widget.FOREGROUND then
    match value with
    | .color v => { w with foreground := v }
    | _ => w
  else if name = Widget.VISIBILITY then
    match value with
    | .visibility v => { w with visibility := v }
    | _ => w
  else if name = Widget.MIN_SIZE then
    match value with
    | .vec2 v => { w with min_size := v }
    | _ => w
  else if name = Widget.MAX_SIZE then
    match value with
    | .vec2 v => { w with max_size := v }
    | _ => w
  else w

/-- The twelve known property names of `Widget`. -/
def Widget.knownPropertyNames : List String :=
  [Widget.WIDTH, Widget.HEIGHT, Widget.VERTICAL_ALIGNMENT,
   Widget.HORIZONTAL_ALIGNMENT, Widget.MARGIN, Widget.ROW, Widget.COLUMN,
   Widget.BACKGROUND, Widget.FOREGROUND, Widget.VISIBILITY,
   Widget.MIN_SIZE, Widget.MAX_SIZE]

/-- Source `WidgetBuilder` (`src/widget.rs:421-439`): optional configuration
collected before `build`. -/
structure WidgetBuilder where
  name : Option String
  width : Option F32
  height : Option F32
  desired_position : Option Vec2
  vertical_alignment : Option VerticalAlignment
  horizontal_alignment : Option HorizontalAlignment
  max_size : Option Vec2
  min_size : Option Vec2
  background : Option Color
  foreground : Option Color
  row : Option Nat
  column : Option Nat
  margin : Option Thickness
  children : List Handle
  is_hit_test_visible : Bool
  visibility : Visibility
  style : Option Style
deriving DecidableEq, Repr

/-- Source `WidgetBuilder::new` (`src/widget.rs:448-468`). -/
def WidgetBuilder.new : WidgetBuilder :=
  { name := none
    width := none
    height := none
    vertical_alignment := none
    horizontal_alignment := none
    max_size := none
    min_size := none
    background := none
    foreground := none
    row := none
    column := none
    margin := none
    desired_position := none
    children := []
    is_hit_test_visible := true
    visibility := Visibility.Visible
    style := none }

/-- Source `WidgetBuilder::with_child` (`src/widget.rs:535-540`): pushes the
handle only when `is_some()`. -/
def WidgetBuilder.with_child (b : WidgetBuilder) (handle : Handle) : WidgetBuilder :=
  if handle.isSome then { b with children := b.children ++ [handle] } else b

/-- Source `WidgetBuilder::with_children` (`src/widget.rs:542-547`): pushes every
element of the slice, unconditionally. -/
def WidgetBuilder.with_children (b : WidgetBuilder) (children : List Handle) :
    WidgetBuilder :=
  { b with children := b.children ++ children }

/-- Modelled from the spec: `Widget::apply_style` (outside the four source
files) writes each of the style's named properties into the widget via
`set_property` (spec §6 "Style collaborator"). -/
def Widget.apply_style (w : Widget) (style : Style) : Widget :=
  style.foldl (fun acc p => acc.set_property p.1 p.2) w

/-- Source `WidgetBuilder::build` (`src/widget.rs:564-601`): defaults applied to
every unset option, then the style (when one was given) is applied. -/
def WidgetBuilder.build (b : WidgetBuilder) : Widget :=
  let widget : Widget :=
    { name := b.name.getD ""
      desired_local_position := b.desired_position.getD Vec2.ZERO
      width := b.width.getD F32.nan
      height := b.height.getD F32.nan
      screen_position := Vec2.ZERO
      desired_size := Vec2.ZERO
      actual_local_position := Vec2.ZERO
      actual_size := Vec2.ZERO
      min_size := b.min_size.getD Vec2.ZERO
      max_size := b.max_size.getD ⟨F32.inf, F32.inf⟩
      background := b.background.getD Color.WHITE
      foreground := b.foreground.getD Color.WHITE
      row := b.row.getD 0
      column := b.column.getD 0
      vertical_alignment := b.vertical_alignment.getD VerticalAlignment.Stretch
      horizontal_alignment := b.horizontal_alignment.getD HorizontalAlignment.Stretch
      margin := b.margin.getD Thickness.zero
      visibility := b.visibility
      global_visibility := true
      children := b.children
      parent := Handle.NONE
      command_indices := []
      is_mouse_over := false
      measure_valid := false
      arrange_valid := false
      events := []
      is_hit_test_visible := b.is_hit_test_visible
      style := none }
  match b.style with
  | some style => widget.apply_style style
  | none => widget

/-- Source `StackPanel` (`src/stack_panel.rs:26-29`). -/
structure StackPanel where
  widget : Widget
  orientation : Orientation
deriving DecidableEq, Repr

/-- Source `StackPanel::new` (`src/stack_panel.rs:32-37`). -/
def StackPanel.new (widget : Widget) : StackPanel :=
  { widget := widget, orientation := Orientation.Vertical }

/-- Source `StackPanel::raw_copy` (`src/stack_panel.rs:57-62`): copies the
embedded widget via `Widget::raw_copy` and keeps the orientation. -/
def StackPanel.raw_copy (sp : StackPanel) : StackPanel :=
  { widget := sp.widget.raw_copy, orientation := sp.orientation }

/-- Source `StackPanel::resolve` (`src/stack_panel.rs:64-66`): empty body. -/
def StackPanel.resolve (sp : StackPanel) (_template : ControlTemplate)
    (_mapping : HandleMap) : StackPanel := sp

/-- A widget subtree: each node is a handle together with the subtrees of
its children.  This is the arena reachable from a widget's `children`
handles, presented structurally so that `Widget::has_descendant`'s
recursion through `ui.nodes` is structural recursion. -/
inductive WidgetTree where
  | node (handle : Handle) (children : List WidgetTree)

mutual

/-- Source `Widget::has_descendant` (`src/widget.rs:392-404`) over the subtrees
of the widget's children: for each child, first compare the child's handle
with the target, then recurse into the child's own children. -/
def has_descendant (children : List WidgetTree) (node_handle : Handle) : Bool :=
  match children with
  | [] => false
  | child :: rest =>
    subtreeMatches child node_handle || has_descendant rest node_handle

/-- One child step of `has_descendant`: the handle comparison plus the
recursive `has_descendant` call on that child's widget. -/
def subtreeMatches : WidgetTree → Handle → Bool
  | .node h cs, node_handle => (h == node_handle) || has_descendant cs node_handle

end

/-- Mouse-capture state of the `UserInterface` (the `UserInterface` type
itself is outside the four source files). -/
structure UIState where
  captured_node : Handle
deriving DecidableEq, Repr

/-- Modelled from the spec: `capture_mouse(handle)` sets the capture owner
(spec §4.4 "Mouse-capture override"). -/
def UIState.capture_mouse (ui : UIState) (handle : Handle) : UIState :=
  { ui with captured_node := handle }

/-- Modelled from the spec: `release_mouse_capture()` clears the capture
owner (spec §4.4). -/
def UIState.release_mouse_capture (_ui : UIState) : UIState :=
  { captured_node := Handle.NONE }

/-- Source `HorizontalDirection` (`src/text_box.rs:44-48`). -/
inductive HorizontalDirection where
  | Left
  | Right
deriving DecidableEq, Repr

/-- Source `VerticalDirection` (`src/text_box.rs:50-54`). -/
inductive VerticalDirection where
  | Down
  | Up
deriving DecidableEq, Repr

/-- Source `Position` (`src/text_box.rs:56-60`): a caret position as line index
and offset within the line. -/
structure Position where
  line : Nat
  offset : Nat
deriving DecidableEq, Repr

/-- Source `SelectionRange` (`src/text_box.rs:62-66`).  The source field names are
`begin` and `end`, which are reserved words here. -/
structure SelectionRange where
  beginPos : Position
  endPos : Position
deriving DecidableEq, Repr

/-- Modelled from the spec: a laid-out text line of the font/text
collaborator carries its per-line byte range (spec §6); `begin`/`end` are
the range bounds into the raw text, as used by
`TextBox::get_absolute_position`. -/
structure Line where
  lineBegin : Nat
  lineEnd : Nat
deriving DecidableEq, Repr

/-- Source `Line::len()`. -/
def Line.len (l : Line) : Nat := l.lineEnd - l.lineBegin

/-- Modelled from the spec: the line layout the font/text collaborator
computes in `FormattedText::build` (spec §6).  Wrapping positions depend
on font metrics; the model lays the whole raw text out as a single line
(the layout of an unwrapped box).  Note that `TextBox::insert_char` only
ever inserts non-control characters, which cannot introduce a line
break. -/
def buildLines (text : List Char) : List Line :=
  if text.isEmpty then [] else [⟨0, text.length⟩]

/-- Modelled from the spec: `FormattedText` of the font/text collaborator
(spec §6) — the raw character buffer plus the lines computed by the last
`build`. -/
structure FormattedText where
  rawText : List Char
  lines : List Line
deriving DecidableEq, Repr

/-- Source `FormattedText::insert_char(c, position)`: inserts into the raw text;
lines are stale until the next `build`. -/
def FormattedText.insert_char (ft : FormattedText) (c : Char) (position : Nat) :
    FormattedText :=
  { ft with rawText := ft.rawText.insertIdx position c }

/-- Source `FormattedText::remove_at(position)`. -/
def FormattedText.remove_at (ft : FormattedText) (position : Nat) : FormattedText :=
  { ft with rawText := ft.rawText.eraseIdx position }

/-- Source `FormattedText::build()`: recompute the line layout from the raw text. -/
def FormattedText.build (ft : FormattedText) : FormattedText :=
  { ft with lines := buildLines ft.rawText }

/-- Rust `char::is_control`: the Unicode Cc category,
`U+0000..U+001F` and `U+007F..U+009F`. -/
def isRustControl (c : Char) : Bool :=
  (c.toNat ≤ 0x1f) || (0x7f ≤ c.toNat && c.toNat ≤ 0x9f)

/-- Source `TextBox` (`src/text_box.rs:68-78`).  The timer fields are kept as
exact rationals. -/
structure TextBox where
  widget : Widget
  caret_line : Nat
  caret_offset : Nat
  caret_visible : Bool
  blink_timer : ℚ
  blink_interval : ℚ
  formatted_text : FormattedText
  selection_range : Option SelectionRange
  selecting : Bool
deriving DecidableEq, Repr

/-- Source `TextBox::new` (`src/text_box.rs:81-95`): fresh formatted text holding
only the default font (empty raw text). -/
def TextBox.new (widget : Widget) : TextBox :=
  { widget := widget
    caret_line := 0
    caret_offset := 0
    caret_visible := false
    blink_timer := 0
    blink_interval := 0
    formatted_text := { rawText := [], lines := [] }
    selection_range := none
    selecting := false }

/-- Source `TextBox::raw_copy` (`src/text_box.rs:266-279`): every field is copied
except `formatted_text`, which is rebuilt from just the font — the text
content is dropped. -/
def TextBox.raw_copy (tb : TextBox) : TextBox :=
  { widget := tb.widget.raw_copy
    caret_line := tb.caret_line
    caret_offset := tb.caret_offset
    caret_visible := tb.caret_visible
    blink_timer := tb.blink_timer
    blink_interval := tb.blink_interval
    formatted_text := { rawText := [], lines := [] }
    selection_range := tb.selection_range
    selecting := tb.selecting }

/-- Source `TextBox::reset_blink` (`src/text_box.rs:97-100`). -/
def TextBox.reset_blink (tb : TextBox) : TextBox :=
  { tb with caret_visible := true, blink_timer := 0 }

/-- The `while offset > 0` loop of `TextBox::move_caret_x`
(`src/text_box.rs:116-143`), with the remaining offset as fuel and the
caret as explicit state.  The Rust `lines[i]` indexing (a panic when out
of range) is modelled with a `⟨0,0⟩` default; every reachable caller keeps
the index in range. -/
def moveCaretXLoop (lines : List Line) (direction : HorizontalDirection) :
    Nat → Nat → Nat → Nat × Nat
  | 0, caret_line, caret_offset => (caret_line, caret_offset)
  | n + 1, caret_line, caret_offset =>
    match direction with
    | .Left =>
      if caret_offset > 0 then
        moveCaretXLoop lines direction n caret_line (caret_offset - 1)
      else if caret_line > 0 then
        moveCaretXLoop lines direction n (caret_line - 1)
          (lines.getD (caret_line - 1) ⟨0, 0⟩).len
      else (caret_line, 0)
    | .Right =>
      let line := lines.getD caret_line ⟨0, 0⟩
      if caret_offset < line.len then
        moveCaretXLoop lines direction n caret_line (caret_offset + 1)
      else if caret_line < lines.length - 1 then
        moveCaretXLoop lines direction n (caret_line + 1) 0
      else (caret_line, line.len)

/-- Source `TextBox::move_caret_x` (`src/text_box.rs:102-144`): clear the
selection, reset the blink, snap to `(0,0)` when there are no lines, else
step the caret `offset` times in the given direction. -/
def TextBox.move_caret_x (tb : TextBox) (offset : Nat)
    (direction : HorizontalDirection) : TextBox :=
  let tb1 := { tb with selection_range := none }
  let tb2 := tb1.reset_blink
  let lines := tb2.formatted_text.lines
  if lines.isEmpty then { tb2 with caret_offset := 0, caret_line := 0 }
  else
    let r := moveCaretXLoop lines direction offset tb2.caret_line tb2.caret_offset
    { tb2 with caret_line := r.1, caret_offset := r.2 }

/-- Source `TextBox::move_caret_y` (`src/text_box.rs:146-172`). -/
def TextBox.move_caret_y (tb : TextBox) (offset : Nat)
    (direction : VerticalDirection) : TextBox :=
  let lines := tb.formatted_text.lines
  if lines.isEmpty then tb
  else
    let line_count := lines.length
    match direction with
    | .Down =>
      if tb.caret_line + offset ≥ line_count then
        { tb with caret_line := line_count - 1 }
      else { tb with caret_line := tb.caret_line + offset }
    | .Up =>
      if tb.caret_line > offset then { tb with caret_line := tb.caret_line - offset }
      else { tb with caret_line := 0 }

/-- Source `TextBox::get_absolute_position` (`src/text_box.rs:174-180`). -/
def TextBox.get_absolute_position (tb : TextBox) : Option Nat :=
  match tb.formatted_text.lines[tb.caret_line]? with
  | some line => some (line.lineBegin + min tb.caret_offset line.len)
  | none => none

/-- Source `TextBox::insert_char` (`src/text_box.rs:183-190`): for non-control
characters only, insert at the caret's absolute position (0 when the caret
resolves to no line), rebuild, and move the caret one step right. -/
def TextBox.insert_char (tb : TextBox) (c : Char) : TextBox :=
  if ¬ isRustControl c then
    let position := tb.get_absolute_position.getD 0
    let tb1 := { tb with
      formatted_text := (tb.formatted_text.insert_char c position).build }
    tb1.move_caret_x 1 HorizontalDirection.Right
  else tb

/-- Source `TextBox::get_text_len` (`src/text_box.rs:192-194`). -/
def TextBox.get_text_len (tb : TextBox) : Nat := tb.formatted_text.rawText.length

/-- Source `TextBox::remove_char` (`src/text_box.rs:196-222`). -/
def TextBox.remove_char (tb : TextBox) (direction : HorizontalDirection) : TextBox :=
  match tb.get_absolute_position with
  | none => tb
  | some position =>
    let text_len := tb.get_text_len
    if text_len ≠ 0 then
      match direction with
      | .Left =>
        if position = 0 then tb
        else
          let tb1 := { tb with
            formatted_text := (tb.formatted_text.remove_at (position - 1)).build }
          tb1.move_caret_x 1 HorizontalDirection.Left
      | .Right =>
        if position ≥ text_len then tb
        else { tb with
          formatted_text := (tb.formatted_text.remove_at position).build }
    else tb

/-- Source `TextBox::handle_event` (`src/text_box.rs:382-446`).  The geometric
caret lookup `screen_pos_to_text_pos` (`src/text_box.rs:224-254`) depends
on the external font collaborator's glyph metrics and is passed in as a
function; the subtrees under the widget's children and the UI's
mouse-capture state are the parts of `UserInterface` the handler touches.
Nothing happens unless the event's source is the widget's own handle or
one of its descendants. -/
def TextBox.handle_event (screen_pos_to_text_pos : Vec2 → Option Position)
    (tb : TextBox) (self_handle : Handle) (self_children : List WidgetTree)
    (ui : UIState) (evt : UIEvent) : TextBox × UIState :=
  if evt.source == self_handle || has_descendant self_children evt.source then
    match evt.kind with
    | .Text symbol => (tb.insert_char symbol, ui)
    | .KeyDown code =>
      (match code with
       | .Up => tb.move_caret_y 1 VerticalDirection.Up
       | .Down => tb.move_caret_y 1 VerticalDirection.Down
       | .Right => tb.move_caret_x 1 HorizontalDirection.Right
       | .Left => tb.move_caret_x 1 HorizontalDirection.Left
       | .Delete => tb.remove_char HorizontalDirection.Right
       | .Backspace => tb.remove_char HorizontalDirection.Left
       | _ => tb,
       ui)
    | .MouseDown pos button =>
      if button = MouseButton.Left then
        let tb1 := { tb with selection_range := none, selecting := true }
        let tb2 :=
          match screen_pos_to_text_pos pos with
          | some position =>
            { tb1 with
              caret_line := position.line
              caret_offset := position.offset
              selection_range := some { beginPos := position, endPos := position } }
          | none => tb1
        (tb2, ui.capture_mouse self_handle)
      else (tb, ui)
    | .MouseMove pos =>
      if tb.selecting then
        match screen_pos_to_text_pos pos with
        | some position =>
          match tb.selection_range with
          | some sel_range =>
            ({ tb with selection_range := some { sel_range with endPos := position } },
             ui)
          | none => (tb, ui)
        | none => (tb, ui)
      else (tb, ui)
    | .MouseUp _ _ => ({ tb with selecting := false }, ui.release_mouse_capture)
    | _ => (tb, ui)
  else (tb, ui)

theorem F32.add_fin (a b : ℚ) : F32.add (F32.fin a) (F32.fin b) = F32.fin (a + b) := rfl

theorem F32.ite_bgt_fin (a b : ℚ) :
    (if F32.bgt (F32.fin a) (F32.fin b) then F32.fin a else F32.fin b)
      = F32.fin (max b a) := by
  by_cases h : b < a
  · simp [F32.bgt, F32.blt, h, max_eq_right h.le]
  · simp [F32.bgt, F32.blt, h, max_eq_left (not_lt.mp h)]

theorem stackMeasureLoop_vertical_eq (sizes : List (ℚ × ℚ)) (ax ay : ℚ) :
    stackMeasureLoop .Vertical ⟨F32.fin ax, F32.fin ay⟩ (sizes.map finVec)
      = ⟨F32.fin ((sizes.map Prod.fst).foldl max ax),
         F32.fin (ay + (sizes.map Prod.snd).sum)⟩ := by
  induction sizes generalizing ax ay with
  | nil => simp [stackMeasureLoop]
  | cons p rest ih =>
    simp only [List.map_cons, stackMeasureLoop, finVec]
    rw [F32.ite_bgt_fin, F32.add_fin, ih]
    simp [add_assoc]

theorem stackMeasureLoop_horizontal_eq (sizes : List (ℚ × ℚ)) (ax ay : ℚ) :
    stackMeasureLoop .Horizontal ⟨F32.fin ax, F32.fin ay⟩ (sizes.map finVec)
      = ⟨F32.fin (ax + (sizes.map Prod.fst).sum),
         F32.fin ((sizes.map Prod.snd).foldl max ay)⟩ := by
  induction sizes generalizing ax ay with
  | nil => simp [stackMeasureLoop]
  | cons p rest ih =>
    simp only [List.map_cons, stackMeasureLoop, finVec]
    rw [F32.ite_bgt_fin, F32.add_fin, ih]
    simp [add_assoc]

example : stackMeasureSize .Vertical
    ([( (2 : ℚ), (3 : ℚ) ), (5, 7), (1, 4)].map finVec)
    = ⟨F32.fin 5, F32.fin 14⟩ := by
  norm_num [stackMeasureSize, stackMeasureLoop, finVec, Vec2.ZERO,
    F32.add, F32.bgt, F32.blt]

example : (stackArrangeOverride .Vertical ⟨F32.fin 10, F32.fin 100⟩
    ([( (2 : ℚ), (3 : ℚ) ), (5, 7)].map finVec)).1
    = [⟨F32.fin 0, F32.fin 0, F32.fin 10, F32.fin 3⟩,
       ⟨F32.fin 0, F32.fin 3, F32.fin 10, F32.fin 7⟩] := by
  norm_num [stackArrangeOverride, stackArrangeLoop, finVec, maxf,
    F32.add, F32.bgt, F32.blt]

/-- C1: for a vertical `StackPanel` whose measured children report desired
sizes `(w1,h1)..(wn,hn)` (desired sizes are nonnegative once measure has
run, spec §3), `measure_override` returns exactly
`(max(w1..wn), h1+..+hn)`; a horizontal panel symmetrically returns
`(w1+..+wn, max(h1..hn))`; a panel with no children returns `(0,0)`.
`(rest.map Prod.fst).foldl max w` is the maximum of the nonempty width list
`w :: rest.map Prod.fst`. -/
theorem stack_panel_measure_override_spec (w h : ℚ) (rest : List (ℚ × ℚ))
    (hw : 0 ≤ w) (hh : 0 ≤ h) :
    (stackMeasureSize .Vertical (((w, h) :: rest).map finVec)
        = ⟨F32.fin ((rest.map Prod.fst).foldl max w),
           F32.fin (h + (rest.map Prod.snd).sum)⟩)
    ∧ (stackMeasureSize .Horizontal (((w, h) :: rest).map finVec)
        = ⟨F32.fin (w + (rest.map Prod.fst).sum),
           F32.fin ((rest.map Prod.snd).foldl max h)⟩)
    ∧ stackMeasureSize .Vertical [] = ⟨F32.fin 0, F32.fin 0⟩
    ∧ stackMeasureSize .Horizontal [] = ⟨F32.fin 0, F32.fin 0⟩ := by
  refine ⟨?_, ?_, rfl, rfl⟩
  · show stackMeasureLoop .Vertical ⟨F32.fin 0, F32.fin 0⟩ _ = _
    rw [stackMeasureLoop_vertical_eq]
    simp [max_eq_right hw]
  · show stackMeasureLoop .Horizontal ⟨F32.fin 0, F32.fin 0⟩ _ = _
    rw [stackMeasureLoop_horizontal_eq]
    simp [max_eq_right hh]

/-- Witness for C1 at children `[(2,3), (5,7)]`. -/
theorem stack_panel_measure_override_spec_witness :
    (0 : ℚ) ≤ 2 ∧ (0 : ℚ) ≤ 3
    ∧ (stackMeasureSize .Vertical ((((2 : ℚ), (3 : ℚ)) :: [(5, 7)]).map finVec)
        = ⟨F32.fin (([((5 : ℚ), (7 : ℚ))].map Prod.fst).foldl max 2),
           F32.fin (3 + ([((5 : ℚ), (7 : ℚ))].map Prod.snd).sum)⟩)
    ∧ (stackMeasureSize .Horizontal ((((2 : ℚ), (3 : ℚ)) :: [(5, 7)]).map finVec)
        = ⟨F32.fin (2 + ([((5 : ℚ), (7 : ℚ))].map Prod.fst).sum),
           F32.fin (([((5 : ℚ), (7 : ℚ))].map Prod.snd).foldl max 3)⟩) :=
  ⟨by norm_num, by norm_num,
   (stack_panel_measure_override_spec 2 3 [(5, 7)] (by norm_num) (by norm_num)).1,
   (stack_panel_measure_override_spec 2 3 [(5, 7)] (by norm_num) (by norm_num)).2.1⟩

theorem q_sum_take_mono (l : List ℚ) (hl : ∀ x ∈ l, 0 ≤ x) :
    ∀ m n, m ≤ n → (l.take m).sum ≤ (l.take n).sum := by
  induction l with
  | nil => simp
  | cons x xs ih =>
    intro m n hmn
    cases m with
    | zero =>
      simp only [List.take_zero, List.sum_nil]
      refine List.sum_nonneg ?_
      intro y hy
      exact hl y (List.take_subset _ _ hy)
    | succ m =>
      cases n with
      | zero => omega
      | succ n =>
        simp only [List.take_succ_cons, List.sum_cons]
        have hxs := ih (fun y hy => hl y (List.mem_cons_of_mem _ hy)) m n (by omega)
        linarith

theorem q_sum_take_succ (l : List ℚ) : ∀ (j : Nat), j < l.length →
    (l.take (j + 1)).sum = (l.take j).sum + l[j]! := by
  induction l with
  | nil => intro j hj; simp at hj
  | cons x xs ih =>
    intro j hj
    cases j with
    | zero => simp
    | succ j =>
      have hxs : j < xs.length := by simpa using hj
      simp only [List.take_succ_cons, List.sum_cons, ih j hxs]
      have : (x :: xs)[j + 1]! = xs[j]! := by
        simp [List.getElem!_cons_succ]
      rw [this]
      ring

theorem stackArrangeLoop_vertical_get (sizes : List (ℚ × ℚ)) (W : F32) (h0 : ℚ) :
    ∀ (i : Nat), i < sizes.length →
    ((stackArrangeLoop .Vertical W (F32.fin h0) (sizes.map finVec)).1[i]?.map
        fun r => (r.y, r.h))
      = some (F32.fin (h0 + ((sizes.take i).map Prod.snd).sum),
              F32.fin (sizes[i]!.2)) := by
  induction sizes generalizing W h0 with
  | nil => intro i hi; simp at hi
  | cons p rest ih =>
    intro i hi
    cases i with
    | zero =>
      simp [stackArrangeLoop, finVec]
    | succ n =>
      have hn : n < rest.length := by simpa using hi
      simp only [List.map_cons, finVec, stackArrangeLoop, List.getElem?_cons_succ]
      rw [F32.add_fin, ih _ _ n hn]
      simp [List.take_succ_cons, add_assoc, List.getElem!_cons_succ]

/-- C2: for a vertical `StackPanel`, `arrange_override` hands child `i` a
rectangle whose y-offset is the sum of the desired heights of children
`0..i-1` and whose height is child `i`'s desired height; consequently, for
nonnegative desired heights, the bottom of any earlier child's rectangle
never exceeds the top of a later one — the rectangles stack in order
without overlap along the stacking axis. -/
theorem stack_panel_arrange_override_spec (sizes : List (ℚ × ℚ)) (final : Vec2)
    (hnn : ∀ p ∈ sizes, 0 ≤ p.2) (i : Nat) (hi : i < sizes.length) :
    (((stackArrangeOverride .Vertical final (sizes.map finVec)).1[i]?.map
        fun r => (r.y, r.h))
      = some (F32.fin (((sizes.take i).map Prod.snd).sum),
              F32.fin (sizes[i]!.2)))
    ∧ ∀ j, j < i →
        ((sizes.take j).map Prod.snd).sum + sizes[j]!.2
          ≤ ((sizes.take i).map Prod.snd).sum := by
  constructor
  · have h := stackArrangeLoop_vertical_get sizes final.x 0 i hi
    simpa [stackArrangeOverride] using h
  · intro j hj
    have hj2 : j < sizes.length := lt_trans hj hi
    have hmap : ∀ x ∈ sizes.map Prod.snd, (0 : ℚ) ≤ x := by
      intro x hx
      rcases List.mem_map.mp hx with ⟨p, hp, rfl⟩
      exact hnn p hp
    have hjm : j < (sizes.map Prod.snd).length := by simpa using hj2
    have h1 := q_sum_take_succ (sizes.map Prod.snd) j hjm
    have h2 := q_sum_take_mono (sizes.map Prod.snd) hmap (j + 1) i hj
    have hget : (sizes.map Prod.snd)[j]! = sizes[j]!.2 := by
      rw [getElem!_pos (List.map Prod.snd sizes) j hjm,
        getElem!_pos sizes j hj2, List.getElem_map]
    rw [hget] at h1
    calc ((sizes.take j).map Prod.snd).sum + sizes[j]!.2
        = ((sizes.map Prod.snd).take j).sum + sizes[j]!.2 := by
          rw [List.map_take]
      _ = ((sizes.map Prod.snd).take (j + 1)).sum := h1.symm
      _ ≤ ((sizes.map Prod.snd).take i).sum := h2
      _ = ((sizes.take i).map Prod.snd).sum := by rw [List.map_take]

/-- Witness for C2 at children `[(2,3), (5,7)]`, final size `(10,100)`,
child index `1`. -/
theorem stack_panel_arrange_override_spec_witness :
    (∀ p ∈ [((2 : ℚ), (3 : ℚ)), (5, 7)], (0 : ℚ) ≤ p.2)
    ∧ (1 < [((2 : ℚ), (3 : ℚ)), (5, 7)].length)
    ∧ (((stackArrangeOverride .Vertical ⟨F32.fin 10, F32.fin 100⟩
          ([((2 : ℚ), (3 : ℚ)), (5, 7)].map finVec)).1[1]?.map
            fun r => (r.y, r.h))
        = some (F32.fin ((([((2 : ℚ), (3 : ℚ)), (5, 7)].take 1).map Prod.snd).sum),
                F32.fin ([((2 : ℚ), (3 : ℚ)), (5, 7)][1]!.2))) :=
  ⟨by norm_num, by norm_num,
   (stack_panel_arrange_override_spec [((2 : ℚ), (3 : ℚ)), (5, 7)]
     ⟨F32.fin 10, F32.fin 100⟩ (by norm_num) 1 (by norm_num)).1⟩

theorem F32.clamp_chain (v lo hi : ℚ) :
    (if F32.bgt (if F32.blt (F32.fin v) (F32.fin lo) then F32.fin lo else F32.fin v)
          (F32.fin hi)
        then F32.fin hi
        else if F32.blt (F32.fin v) (F32.fin lo) then F32.fin lo else F32.fin v)
      = F32.fin (min (max v lo) hi) := by
  by_cases h1 : v < lo
  · by_cases h2 : hi < lo
    · simp [F32.bgt, F32.blt, h1, h2, max_eq_right h1.le, min_eq_right h2.le]
    · simp [F32.bgt, F32.blt, h1, h2, max_eq_right h1.le,
        min_eq_left (not_lt.mp h2)]
  · by_cases h2 : hi < v
    · simp [F32.bgt, F32.blt, h1, h2, max_eq_left (not_lt.mp h1),
        min_eq_right h2.le]
    · simp [F32.bgt, F32.blt, h1, h2, max_eq_left (not_lt.mp h1),
        min_eq_left (not_lt.mp h2)]

/-- Encode "explicit size or the NaN auto sentinel" as an `Option`:
`none` is NaN (auto), `some q` an explicit finite size. -/
def optSize : Option ℚ → F32
  | none => F32.nan
  | some q => F32.fin q

/-- C3: during `measure_override` of a vertical `StackPanel`, the single
constraint measured against every child is infinite on the stacking axis
(`y = +inf`) and on the cross axis equals the available width — replaced by
the panel's explicit width when that is not NaN — clamped into
`[min_size.x, max_size.x]`; symmetrically on the y axis for a horizontal
panel.  The clamp is `min (max v lo) hi`, matching the two sequential
comparisons in the source. -/
theorem stack_panel_child_constraint_spec
    (wopt hopt : Option ℚ) (mnx mxx ax mny mxy ay : ℚ) (o1 o2 o3 o4 o5 o6 : F32) :
    (stackChildConstraint .Vertical (optSize wopt) o1
        ⟨F32.fin mnx, o2⟩ ⟨F32.fin mxx, o3⟩ ⟨F32.fin ax, o4⟩
      = ⟨F32.fin (min (max (wopt.getD ax) mnx) mxx), F32.inf⟩)
    ∧ (stackChildConstraint .Horizontal o5 (optSize hopt)
        ⟨o6, F32.fin mny⟩ ⟨o1, F32.fin mxy⟩ ⟨o2, F32.fin ay⟩
      = ⟨F32.inf, F32.fin (min (max (hopt.getD ay) mny) mxy)⟩) := by
  constructor
  · cases wopt with
    | none =>
      simp only [stackChildConstraint, optSize, Option.getD_none]
      rw [show (if ¬ ((F32.nan).isNan = true) then F32.nan else F32.fin ax)
            = F32.fin ax by simp [F32.isNan]]
      rw [F32.clamp_chain]
    | some q =>
      simp only [stackChildConstraint, optSize, Option.getD_some]
      rw [show (if ¬ ((F32.fin q).isNan = true) then F32.fin q else F32.fin ax)
            = F32.fin q by simp [F32.isNan]]
      rw [F32.clamp_chain]
  · cases hopt with
    | none =>
      simp only [stackChildConstraint, optSize, Option.getD_none]
      rw [show (if ¬ ((F32.nan).isNan = true) then F32.nan else F32.fin ay)
            = F32.fin ay by simp [F32.isNan]]
      rw [F32.clamp_chain]
    | some q =>
      simp only [stackChildConstraint, optSize, Option.getD_some]
      rw [show (if ¬ ((F32.fin q).isNan = true) then F32.fin q else F32.fin ay)
            = F32.fin q by simp [F32.isNan]]
      rw [F32.clamp_chain]

/-- A concrete widget built with all defaults, for concrete instances. -/
def sampleWidget : Widget := WidgetBuilder.new.build

/-- A concrete text box over the default widget. -/
def sampleTextBox : TextBox := TextBox.new sampleWidget

/-- C4: when the text box handles an event whose source is neither its own
handle nor one of its descendants, its entire state — and the UI's
mouse-capture state — is left unchanged, whatever the event kind. -/
theorem text_box_handle_event_unrelated_noop
    (screen_pos_to_text_pos : Vec2 → Option Position) (tb : TextBox)
    (self_handle : Handle) (self_children : List WidgetTree) (ui : UIState)
    (evt : UIEvent) (hsrc : evt.source ≠ self_handle)
    (hdesc : has_descendant self_children evt.source = false) :
    TextBox.handle_event screen_pos_to_text_pos tb self_handle self_children ui evt
      = (tb, ui) := by
  unfold TextBox.handle_event
  have h1 : (evt.source == self_handle) = false := by
    simp [hsrc]
  rw [h1, hdesc]
  simp

/-- Witness for C4: a `Click` sourced at an unrelated handle leaves the
sample text box and the capture state untouched. -/
theorem text_box_handle_event_unrelated_noop_witness :
    ((⟨2⟩ : Handle) ≠ (⟨1⟩ : Handle))
    ∧ has_descendant [] (⟨2⟩ : Handle) = false
    ∧ TextBox.handle_event (fun _ => none) sampleTextBox ⟨1⟩ [] ⟨Handle.NONE⟩
        ⟨false, UIEventKind.Click, Handle.NONE, ⟨2⟩⟩
      = (sampleTextBox, ⟨Handle.NONE⟩) :=
  ⟨by decide, by simp [has_descendant],
   text_box_handle_event_unrelated_noop (fun _ => none) sampleTextBox ⟨1⟩ [] _ _
     (by decide) (by simp [has_descendant])⟩

/-- C5: when the text box handles a left-button `MouseDown` sourced at or
below itself, it captures the mouse with its own handle and raises its
`selecting` flag; when it handles a `MouseUp` (any button) under the same
guard, it releases the capture and clears `selecting`; a non-left
`MouseDown` changes nothing — the capture is held exactly from left
mouse-down to mouse-up. -/
theorem text_box_mouse_capture_spec
    (screen_pos_to_text_pos : Vec2 → Option Position) (tb : TextBox)
    (self_handle : Handle) (self_children : List WidgetTree) (ui : UIState)
    (pos pos2 : Vec2) (button2 : MouseButton) (hd hd2 : Bool)
    (tgt tgt2 src : Handle)
    (hrel : (src == self_handle || has_descendant self_children src) = true) :
    ((TextBox.handle_event screen_pos_to_text_pos tb self_handle self_children ui
        ⟨hd, UIEventKind.MouseDown pos MouseButton.Left, tgt, src⟩).2.captured_node
      = self_handle)
    ∧ ((TextBox.handle_event screen_pos_to_text_pos tb self_handle self_children ui
        ⟨hd, UIEventKind.MouseDown pos MouseButton.Left, tgt, src⟩).1.selecting
      = true)
    ∧ ((TextBox.handle_event screen_pos_to_text_pos tb self_handle self_children ui
        ⟨hd2, UIEventKind.MouseUp pos2 button2, tgt2, src⟩).2.captured_node
      = Handle.NONE)
    ∧ ((TextBox.handle_event screen_pos_to_text_pos tb self_handle self_children ui
        ⟨hd2, UIEventKind.MouseUp pos2 button2, tgt2, src⟩).1.selecting
      = false)
    ∧ (∀ button3, button3 ≠ MouseButton.Left →
        TextBox.handle_event screen_pos_to_text_pos tb self_handle self_children ui
          ⟨hd, UIEventKind.MouseDown pos button3, tgt, src⟩ = (tb, ui)) := by
  refine ⟨?_, ?_, ?_, ?_, ?_⟩
  · cases h : screen_pos_to_text_pos pos <;>
      simp [TextBox.handle_event, hrel, h, UIState.capture_mouse]
  · cases h : screen_pos_to_text_pos pos <;>
      simp [TextBox.handle_event, hrel, h, UIState.capture_mouse]
  · simp [TextBox.handle_event, hrel, UIState.release_mouse_capture]
  · simp [TextBox.handle_event, hrel, UIState.release_mouse_capture]
  · intro button3 h3
    simp [TextBox.handle_event, hrel, h3]

/-- Witness for C5: a left `MouseDown` sourced at the box's own handle
captures the mouse, the matching `MouseUp` releases it. -/
theorem text_box_mouse_capture_spec_witness :
    (((⟨1⟩ : Handle) == (⟨1⟩ : Handle) || has_descendant [] ⟨1⟩) = true)
    ∧ ((TextBox.handle_event (fun _ => none) sampleTextBox ⟨1⟩ []
        ⟨Handle.NONE⟩
        ⟨false, UIEventKind.MouseDown Vec2.ZERO MouseButton.Left, Handle.NONE, ⟨1⟩⟩).2.captured_node
      = (⟨1⟩ : Handle))
    ∧ ((TextBox.handle_event (fun _ => none) sampleTextBox ⟨1⟩ []
        ⟨Handle.NONE⟩
        ⟨false, UIEventKind.MouseUp Vec2.ZERO MouseButton.Left, Handle.NONE, ⟨1⟩⟩).2.captured_node
      = Handle.NONE) :=
  ⟨by simp [has_descendant],
   (text_box_mouse_capture_spec (fun _ => none) sampleTextBox ⟨1⟩ [] ⟨Handle.NONE⟩
     Vec2.ZERO Vec2.ZERO MouseButton.Left false false Handle.NONE Handle.NONE ⟨1⟩
     (by simp [has_descendant])).1,
   (text_box_mouse_capture_spec (fun _ => none) sampleTextBox ⟨1⟩ [] ⟨Handle.NONE⟩
     Vec2.ZERO Vec2.ZERO MouseButton.Left false false Handle.NONE Handle.NONE ⟨1⟩
     (by simp [has_descendant])).2.2.1⟩

theorem text_box_absolute_position_built (tb : TextBox)
    (hbuilt : tb.formatted_text.lines = buildLines tb.formatted_text.rawText)
    (hline : tb.caret_line = 0)
    (hoff : tb.caret_offset ≤ tb.formatted_text.rawText.length) :
    tb.get_absolute_position.getD 0 = tb.caret_offset := by
  unfold TextBox.get_absolute_position
  rw [hbuilt, hline]
  cases hraw : tb.formatted_text.rawText with
  | nil =>
    rw [hraw] at hoff
    simp at hoff
    simp [buildLines, hoff]
  | cons x xs =>
    rw [hraw] at hoff
    simp [buildLines, Line.len]
    simp at hoff
    omega

/-- C9: `TextBox::insert_char` ignores every control character entirely
(text buffer, caret line and caret offset unchanged); for a non-control
character it inserts the character at the caret's absolute position —
under a built line layout and an in-range caret, the caret offset itself —
and advances the caret one step to the right. -/
theorem text_box_insert_char_spec (tb : TextBox) (c : Char)
    (hbuilt : tb.formatted_text.lines = buildLines tb.formatted_text.rawText)
    (hline : tb.caret_line = 0)
    (hoff : tb.caret_offset ≤ tb.formatted_text.rawText.length) :
    (isRustControl c = true → tb.insert_char c = tb)
    ∧ (isRustControl c = false →
      (tb.insert_char c).formatted_text.rawText
          = tb.formatted_text.rawText.insertIdx tb.caret_offset c
      ∧ (tb.insert_char c).caret_line = tb.caret_line
      ∧ (tb.insert_char c).caret_offset = tb.caret_offset + 1) := by
  constructor
  · intro h
    simp [TextBox.insert_char, h]
  · intro h
    have hcond : ¬ isRustControl c = true := by simp [h]
    have habs := text_box_absolute_position_built tb hbuilt hline hoff
    unfold TextBox.insert_char
    rw [if_pos hcond, habs]
    have hlen : (tb.formatted_text.rawText.insertIdx tb.caret_offset c).length
        = tb.formatted_text.rawText.length + 1 :=
      List.length_insertIdx _ _ hoff
    have hne : (tb.formatted_text.rawText.insertIdx tb.caret_offset c).isEmpty = false := by
      cases hcase : tb.formatted_text.rawText.insertIdx tb.caret_offset c with
      | nil => rw [hcase] at hlen; simp at hlen
      | cons y ys => rfl
    have hbuild2 : buildLines (tb.formatted_text.rawText.insertIdx tb.caret_offset c)
        = [⟨0, tb.formatted_text.rawText.length + 1⟩] := by
      unfold buildLines
      rw [hne, hlen]
      rfl
    have hlt : tb.caret_offset < tb.formatted_text.rawText.length + 1 := by omega
    have hloop : moveCaretXLoop [⟨0, tb.formatted_text.rawText.length + 1⟩]
        HorizontalDirection.Right 1 0 tb.caret_offset
        = (0, tb.caret_offset + 1) := by
      simp [moveCaretXLoop, List.getD, Line.len, hlt]
    unfold TextBox.move_caret_x TextBox.reset_blink
    simp [FormattedText.build, FormattedText.insert_char, hbuild2, hloop, hline]

/-- A concrete text box holding the built text "ab" with the caret at
offset 1 on line 0. -/
def sampleTextBoxAB : TextBox :=
  { sampleTextBox with
    caret_offset := 1
    formatted_text := { rawText := [( 'a' ), ( 'b' )], lines := [⟨0, 2⟩] } }

/-- Witness for C9: inserting a non-control character into "ab" at offset
1, and hitting the box with a control character. -/
theorem text_box_insert_char_spec_witness :
    (sampleTextBoxAB.formatted_text.lines
        = buildLines sampleTextBoxAB.formatted_text.rawText)
    ∧ sampleTextBoxAB.caret_line = 0
    ∧ sampleTextBoxAB.caret_offset ≤ sampleTextBoxAB.formatted_text.rawText.length
    ∧ (isRustControl (Char.ofNat 10) = true →
        sampleTextBoxAB.insert_char (Char.ofNat 10) = sampleTextBoxAB)
    ∧ (isRustControl ( 'x' ) = false →
        (sampleTextBoxAB.insert_char ( 'x' )).formatted_text.rawText
            = sampleTextBoxAB.formatted_text.rawText.insertIdx
                sampleTextBoxAB.caret_offset ( 'x' )
        ∧ (sampleTextBoxAB.insert_char ( 'x' )).caret_line
            = sampleTextBoxAB.caret_line
        ∧ (sampleTextBoxAB.insert_char ( 'x' )).caret_offset
            = sampleTextBoxAB.caret_offset + 1) :=
  ⟨by decide, by decide, by decide,
   (text_box_insert_char_spec sampleTextBoxAB (Char.ofNat 10) (by decide)
     (by decide) (by decide)).1,
   (text_box_insert_char_spec sampleTextBoxAB ( 'x' ) (by decide)
     (by decide) (by decide)).2⟩

/-- A widget with a child handle, a validated measure cache and a pending
event, for the C6 counterexample. -/
def sampleWidgetChild : Widget :=
  { sampleWidget with
    children := [⟨5⟩]
    measure_valid := true
    events := [UIEvent.new UIEventKind.Click] }

/-- A text box holding the one-character text "a". -/
def sampleTextBoxA : TextBox :=
  { sampleTextBox with formatted_text := { rawText := [( 'a' )], lines := [⟨0, 1⟩] } }

/-- C6 counterexample: `raw_copy` followed by `resolve` with the identity
mapping does NOT produce a structurally identical copy free of the
original tree's handles.  The copy's `children` still holds the original
tree's handle `⟨5⟩` (and `resolve` ignored the mapping entirely); the copy
differs from the original because the validity flags and buffers are
reset; and `TextBox::raw_copy` even drops the text content. -/
theorem widget_raw_copy_resolve_counterexample :
    ((sampleWidgetChild.raw_copy.resolve () []).children = [⟨5⟩]
      ∧ sampleWidgetChild.children = [⟨5⟩])
    ∧ sampleWidgetChild.raw_copy.resolve () [] ≠ sampleWidgetChild
    ∧ (sampleTextBoxA.raw_copy.formatted_text.rawText = []
      ∧ sampleTextBoxA.formatted_text.rawText = [( 'a' )]) := by
  refine ⟨⟨rfl, rfl⟩, ?_, rfl, rfl⟩
  intro h
  have h2 := congrArg Widget.measure_valid h
  simp [Widget.raw_copy, Widget.resolve, sampleWidgetChild] at h2

/-- C6 amended: `raw_copy` followed by `resolve` (with any mapping,
identity included) reproduces the widget exactly on every persistent
field; only the transient state is reset — `command_indices` and `events`
are emptied and `measure_valid`/`arrange_valid` are false — and, since
`resolve` has an empty body for these widgets, the handle-valued fields
(`parent`, `children`) keep exactly the original tree's handles. -/
theorem widget_raw_copy_resolve_amended (w : Widget) (sp : StackPanel)
    (t t2 : ControlTemplate) (m m2 : HandleMap) :
    (w.raw_copy.resolve t m
      = { w with
          command_indices := []
          events := []
          measure_valid := false
          arrange_valid := false })
    ∧ (sp.raw_copy.resolve t2 m2
      = { sp with widget :=
          { sp.widget with
            command_indices := []
            events := []
            measure_valid := false
            arrange_valid := false } }) :=
  ⟨rfl, rfl⟩

/-- C7 counterexample: an `f64` value does not downcast to `f32`, the
expected payload type of the `Width` property, yet `set_property` is not a
no-op — the source's fallback branch casts it and sets the width. -/
theorem widget_set_property_f64_counterexample :
    (sampleWidget.set_property Widget.WIDTH (DynValue.f64 (F32.fin 3))).width
        = F32.fin 3
    ∧ sampleWidget.width = F32.nan := by
  constructor
  · simp [Widget.set_property, Widget.WIDTH, Widget.HORIZONTAL_ALIGNMENT,
      Widget.VERTICAL_ALIGNMENT]
  · rfl

/-- C7 amended: `set_property` is a silent no-op (never a panic or error)
whenever the name is unknown or the value's dynamic type is not one the
property accepts — where `Width`/`Height` accept `f64` besides their
expected `f32` — and otherwise performs exactly the single-field update
`applyProperty`; every name outside the twelve known property names is
rejected. -/
theorem widget_set_property_spec (w : Widget) (name : String) (value : DynValue) :
    (w.set_property name value
      = if acceptsProperty name value then applyProperty name value w else w)
    ∧ (name ∉ Widget.knownPropertyNames → acceptsProperty name value = false) := by
  constructor
  · by_cases hha : name = Widget.HORIZONTAL_ALIGNMENT
    · subst hha; cases value <;> rfl
    by_cases hva : name = Widget.VERTICAL_ALIGNMENT
    · subst hva; cases value <;> rfl
    by_cases hw : name = Widget.WIDTH
    · subst hw; cases value <;> rfl
    by_cases hh : name = Widget.HEIGHT
    · subst hh; cases value <;> rfl
    by_cases hm : name = Widget.MARGIN
    · subst hm; cases value <;> rfl
    by_cases hr : name = Widget.ROW
    · subst hr; cases value <;> rfl
    by_cases hc : name = Widget.COLUMN
    · subst hc; cases value <;> rfl
    by_cases hb : name = Widget.BACKGROUND
    · subst hb; cases value <;> rfl
    by_cases hf : name = Widget.FOREGROUND
    · subst hf; cases value <;> rfl
    by_cases hv : name = Widget.VISIBILITY
    · subst hv; cases value <;> rfl
    by_cases hmin : name = Widget.MIN_SIZE
    · subst hmin; cases value <;> rfl
    by_cases hmax : name = Widget.MAX_SIZE
    · subst hmax; cases value <;> rfl
    simp only [Widget.set_property, acceptsProperty, hha, hva, hw, hh, hm, hr,
      hc, hb, hf, hv, hmin, hmax, if_false, ite_false]
    simp
  · intro hnot
    simp only [Widget.knownPropertyNames, List.mem_cons, List.not_mem_nil,
      or_false] at hnot
    push_neg at hnot
    obtain ⟨h1, h2, h3, h4, h5, h6, h7, h8, h9, h10, h11, h12⟩ := hnot
    cases value <;>
      simp [acceptsProperty, h1, h2, h3, h4, h5, h6, h7, h8, h9, h10, h11, h12]

/-- Witness for C7's amended claim at the `Margin` property with a
`usize` value (rejected) and at an unknown name. -/
theorem widget_set_property_spec_witness :
    (sampleWidget.set_property Widget.MARGIN (DynValue.usize 4)
      = if acceptsProperty Widget.MARGIN (DynValue.usize 4)
        then applyProperty Widget.MARGIN (DynValue.usize 4) sampleWidget
        else sampleWidget)
    ∧ ("NoSuchProperty" ∉ Widget.knownPropertyNames)
    ∧ acceptsProperty "NoSuchProperty" (DynValue.usize 4) = false :=
  ⟨(widget_set_property_spec sampleWidget Widget.MARGIN (DynValue.usize 4)).1,
   by decide,
   (widget_set_property_spec sampleWidget "NoSuchProperty" (DynValue.usize 4)).2
     (by decide)⟩

/-- C8: a widget built by `WidgetBuilder::new().build()` has the
documented defaults: width and height NaN (the auto sentinel), `min_size`
`(0,0)`, `max_size` `(+inf,+inf)`, both alignments `Stretch`, zero margin,
`Visible`, hit-test-visible, parent `NONE`, and both validity flags
false. -/
theorem widget_builder_defaults_spec :
    (WidgetBuilder.new.build).width = F32.nan
    ∧ (WidgetBuilder.new.build).height = F32.nan
    ∧ (WidgetBuilder.new.build).min_size = ⟨F32.fin 0, F32.fin 0⟩
    ∧ (WidgetBuilder.new.build).max_size = ⟨F32.inf, F32.inf⟩
    ∧ (WidgetBuilder.new.build).horizontal_alignment = HorizontalAlignment.Stretch
    ∧ (WidgetBuilder.new.build).vertical_alignment = VerticalAlignment.Stretch
    ∧ (WidgetBuilder.new.build).margin = Thickness.zero
    ∧ (WidgetBuilder.new.build).visibility = Visibility.Visible
    ∧ (WidgetBuilder.new.build).is_hit_test_visible = true
    ∧ (WidgetBuilder.new.build).parent = Handle.NONE
    ∧ (WidgetBuilder.new.build).measure_valid = false
    ∧ (WidgetBuilder.new.build).arrange_valid = false :=
  ⟨rfl, rfl, rfl, rfl, rfl, rfl, rfl, rfl, rfl, rfl, rfl, rfl⟩

/-- C10: `with_child` appends the handle to the pending children exactly
when `is_some()` — called with `NONE` it leaves the whole builder
unchanged — while `with_children` appends every element of its slice
unconditionally, `NONE` included. -/
theorem widget_builder_with_child_spec (b : WidgetBuilder) (handle : Handle)
    (children : List Handle) :
    (handle.isSome = true →
      (b.with_child handle).children = b.children ++ [handle])
    ∧ (handle.isSome = false → b.with_child handle = b)
    ∧ (b.with_children children).children = b.children ++ children := by
  refine ⟨?_, ?_, rfl⟩
  · intro h
    simp [WidgetBuilder.with_child, h]
  · intro h
    simp [WidgetBuilder.with_child, h]

/-- Witness for C10: a non-`NONE` handle is appended, `NONE` is dropped,
and `with_children` appends even `NONE`. -/
theorem widget_builder_with_child_spec_witness :
    ((⟨3⟩ : Handle).isSome = true)
    ∧ (Handle.NONE.isSome = false)
    ∧ (WidgetBuilder.new.with_child ⟨3⟩).children = [] ++ [⟨3⟩]
    ∧ WidgetBuilder.new.with_child Handle.NONE = WidgetBuilder.new
    ∧ (WidgetBuilder.new.with_children [⟨3⟩, Handle.NONE]).children
        = [] ++ [⟨3⟩, Handle.NONE] :=
  ⟨by decide, by decide,
   (widget_builder_with_child_spec WidgetBuilder.new ⟨3⟩ []).1 (by decide),
   (widget_builder_with_child_spec WidgetBuilder.new Handle.NONE []).2.1 (by decide),
   (widget_builder_with_child_spec WidgetBuilder.new Handle.NONE
     [⟨3⟩, Handle.NONE]).2.2⟩

end RgUI
